import Mathlib

/-
Verification of the configuration-resolution engine of the aspen web server
(src/lib/python/aspen/configuration.py), as a shallow embedding in Lean 4.

The embedding models Python 2 semantics explicitly:
  * fallible code returns `Except PyError`, where `PyError` covers the
    exception kinds the module can raise (including old-style string raises,
    `UnboundLocalError`, `IndexError`, and `IOError`);
  * the filesystem is an explicit record of `isfile` / `isdir` predicates plus
    the parsed content `RawConfigParser` would read from a path;
  * the process-wide module search path (`sys.path`) is threaded through
    `PathsRec.init` as an explicit list;
  * the process-wide mode slot (the `aspen.mode` module, whose source is not
    part of the repository snapshot) is threaded as an explicit string.
-/

namespace Aspen

/-- Exception kinds raised by configuration.py under Python 2 semantics.
`stringException` models an old-style string raise (`raise "some message"`).
`invalidAddressError` is modelled from the spec: the error taxonomy of the spec
names an `InvalidAddressError` surfaced by the address validator, but no code
under src/ defines or raises such a type; the constructor exists only so that
statements about it can be expressed. -/
inductive PyError where
  | configurationError (msg : String)
  | stringException (msg : String)
  | typeError (msg : String)
  | valueError (msg : String)
  | unboundLocalError (name : String)
  | attributeError (msg : String)
  | indexError
  | ioError (path : String)
  | invalidAddressError (msg : String)
deriving DecidableEq

/-- Splits a character list at every occurrence of `sep`, keeping empty pieces:
the semantics of Python `str.split(sep)` with a one-character separator.
Returns the first piece and the remaining pieces. -/
def splitCharFn (sep : Char) : List Char → List Char × List (List Char)
  | [] => ([], [])
  | c :: cs =>
    let r := splitCharFn sep cs
    if c = sep then ([], r.1 :: r.2) else (c :: r.1, r.2)

/-- Python `str.split(sep)` for a one-character separator. -/
def splitChar (sep : Char) (l : List Char) : List (List Char) :=
  (splitCharFn sep l).1 :: (splitCharFn sep l).2

/-- Python `str.strip()`: drop whitespace from both ends. -/
def stripChars (l : List Char) : List Char :=
  ((l.dropWhile Char.isWhitespace).reverse.dropWhile Char.isWhitespace).reverse

/-- Python `str.isdigit()`: non-empty and all decimal digits. -/
def pyIsdigit (l : List Char) : Bool :=
  !l.isEmpty && l.all Char.isDigit

/-- Numeric value of a decimal digit string, the semantics of Python `int(s)`
on a string that satisfies `isdigit`. -/
def decVal (l : List Char) : Nat :=
  l.foldl (fun a c => 10 * a + (c.toNat - 48)) 0

/-- Octal digit test, for the classic `inet_aton` number syntax. -/
def isOctDigit (c : Char) : Bool :=
  decide (48 ≤ c.toNat) && decide (c.toNat ≤ 55)

/-- Hexadecimal digit test, for the classic `inet_aton` number syntax. -/
def isHexDigit (c : Char) : Bool :=
  c.isDigit || (decide (97 ≤ c.toNat) && decide (c.toNat ≤ 102))
    || (decide (65 ≤ c.toNat) && decide (c.toNat ≤ 70))

/-- Value of a hexadecimal digit. -/
def hexDigitVal (c : Char) : Nat :=
  if c.isDigit then c.toNat - 48
  else if decide (97 ≤ c.toNat) then c.toNat - 87
  else c.toNat - 55

/-- Octal value of an octal digit string. -/
def octVal (l : List Char) : Nat :=
  l.foldl (fun a c => 8 * a + (c.toNat - 48)) 0

/-- Hexadecimal value of a hex digit string. -/
def hexVal (l : List Char) : Nat :=
  l.foldl (fun a c => 16 * a + hexDigitVal c) 0

/-- Decimal C-number parse: non-empty all-decimal-digit strings only. -/
def decVal? (l : List Char) : Option Nat :=
  if !l.isEmpty && l.all Char.isDigit then some (decVal l) else none

/-- Octal C-number parse: non-empty all-octal-digit strings only. -/
def octVal? (l : List Char) : Option Nat :=
  if !l.isEmpty && l.all isOctDigit then some (octVal l) else none

/-- Hexadecimal C-number parse: non-empty all-hex-digit strings only. -/
def hexVal? (l : List Char) : Option Nat :=
  if !l.isEmpty && l.all isHexDigit then some (hexVal l) else none

/-- One component of the classic `inet_aton` numbers-and-dots notation: a
C-style numeric literal (leading `0x`/`0X` is hexadecimal, a leading `0` is
octal, otherwise decimal). -/
def cNum (l : List Char) : Option Nat :=
  match l with
  | [] => none
  | c :: rest =>
    if c = '0' then
      match rest with
      | [] => some 0
      | c2 :: r2 => if c2 = 'x' || c2 = 'X' then hexVal? r2 else octVal? rest
    else decVal? l

/-- Parse every dot-separated component with `cNum`; `none` if any fails. -/
def partsVals : List (List Char) → Option (List Nat)
  | [] => some []
  | p :: ps =>
    match cNum p, partsVals ps with
    | some v, some vs => some (v :: vs)
    | _, _ => none

/-- Model of the libc `inet_aton` called by `validate_address` (the classic
numbers-and-dots notation): between one and four dot-separated C-style
numbers, the leading ones each at most 255 and the final one bounded by the
remaining bytes of the 32-bit address. Returns `true` iff the call succeeds. -/
def inet_aton_ok (l : List Char) : Bool :=
  match partsVals (splitChar '.' l) with
  | none => false
  | some [a] => decide (a ≤ 4294967295)
  | some [a, b] => decide (a ≤ 255) && decide (b ≤ 16777215)
  | some [a, b, c] => decide (a ≤ 255) && decide (b ≤ 255) && decide (c ≤ 65535)
  | some [a, b, c, d] =>
    decide (a ≤ 255) && decide (b ≤ 255) && decide (c ≤ 255) && decide (d ≤ 255)
  | some _ => false

/-- Socket address families used by configuration.py. -/
inductive Sockfam where
  | AF_UNIX
  | AF_INET
  | AF_INET6
deriving DecidableEq

/-- The normalized address value `validate_address` returns: a canonicalized
path for `AF_UNIX`, the raw literal for `AF_INET6`, and an `(ip, port)` pair
for `AF_INET`. -/
inductive Address where
  | unixPath (p : String)
  | inet6 (s : String)
  | inet (ip : String) (port : Nat)
deriving DecidableEq

/-- configuration.py line 29: `WINDOWS` tests whether "win" occurs in `sys.platform`; false on the
POSIX platforms this development models. -/
def WINDOWS : Bool := false

/-- `validate_address` (configuration.py lines 64-150), specialized to string
inputs (the `isinstance(address, (tuple, list))` branch at lines 96-99 is not
taken for strings, and the port unpacked from a string split is itself a
string, so the integer-port branch at lines 134-136 is not taken either).
`realpath` abstracts `os.path.realpath`, applied only on the AF_UNIX branch.
Python evaluates `address[0]` before any classification, so the empty string
raises `IndexError`; on the AF_INET branch the failure value is the old-style
string exception `"Bad address %s"`. -/
def validate_address (realpath : String → String) (address : String) :
    Except PyError (Address × Sockfam) :=
  if address.data.isEmpty then .error .indexError
  else
    let c0 := address.data.headD ' '
    if c0 = '/' ∨ c0 = '.' then
      if WINDOWS then .error (.configurationError "Can\x27t use an AF_UNIX socket on Windows.")
      else .ok (.unixPath (realpath address), .AF_UNIX)
    else if address.data.count ':' > 1 then .ok (.inet6 address, .AF_INET6)
    else
      let err := PyError.stringException ("Bad address " ++ address)
      if address.data.count ':' ≠ 1 then .error err
      else
        let parts := (splitChar ':' address.data).map stripChars
        let ipl := parts.getD 0 []
        let portl := parts.getD 1 []
        let ipRes : Except PyError (List Char) :=
          if ipl.isEmpty then .ok "0.0.0.0".data
          else if inet_aton_ok ipl then .ok ipl
          else .error err
        match ipRes with
        | .error e => .error e
        | .ok ip =>
          if !pyIsdigit portl then .error err
          else
            let port := decVal portl
            if 0 ≤ port ∧ port ≤ 65535 then .ok (.inet (String.mk ip) port, .AF_INET)
            else .error err

/-- The section data `RawConfigParser` holds after reading a file: the
key/values of the `[DEFAULT]` section live in `_defaults`, every other section in
`_sections`. -/
structure ConfData where
  defaults : List (String × String)
  sections : List (String × List (String × String))
deriving DecidableEq

/-- The filesystem as configuration.py observes it: `isfile`/`isdir` tests
plus, for each path, the section data `RawConfigParser.readfp(open(path))`
would produce from the file at that path. -/
structure FS where
  isfile : String → Bool
  isdir : String → Bool
  parsed : String → ConfData

/-- POSIX `os.path.join` for the relative second components used here. -/
def join (a b : String) : String := a ++ "/" ++ b

/-- POSIX `os.path.isabs`: the path starts with a slash. -/
def isabs (p : String) : Bool :=
  match p.data with
  | c :: _ => c = '/'
  | [] => false

/-- POSIX `os.path.dirname`: everything up to the last slash, with trailing
slashes stripped unless the head is all slashes. -/
def dirname (p : String) : String :=
  let l := p.data
  match l.reverse.findIdx? (fun c => c = '/') with
  | none => ""
  | some rid =>
    let head := l.take (l.length - rid)
    if head.all (fun c => c = '/') then String.mk head
    else String.mk ((head.reverse.dropWhile (fun c => c = '/')).reverse)

/-- The `Paths` record (configuration.py lines 217-291). -/
structure PathsRec where
  root : String
  etc : Option String
  aspen_conf : Option String
  lib : Option String
  pkg : Option String
  plat : Option String
deriving DecidableEq

/-- `Paths.__init__` (configuration.py lines 221-291). Takes the website
root, `sys.version[:3]`, `sys.platform`, and the current `sys.path`; returns
the populated record together with the new `sys.path` (each found directory
is pushed with `sys.path.insert(0, ...)`, in source order lib, pkg, plat).
Note that `pkg` and `plat` are joined against the *last tried* lib candidate
even when neither lib candidate is a directory. -/
def PathsRec.init (fs : FS) (root : String) (version3 : String) (platform : String)
    (sysPath : List String) : Except PyError (PathsRec × List String) :=
  let aspen_conf := join root "aspen.conf"
  let has_aspen_conf := fs.isfile aspen_conf
  let etc_aspen_conf := join (join root "etc") "aspen.conf"
  let has_etc_aspen_conf := fs.isfile etc_aspen_conf
  if has_aspen_conf && has_etc_aspen_conf then
    .error (.configurationError "Only one of aspen.conf and etc/aspen.conf may be present.")
  else if has_aspen_conf then
    .ok ({ root := root, etc := none, aspen_conf := some aspen_conf
         , lib := none, pkg := none, plat := none }, sysPath)
  else if has_etc_aspen_conf then
    let lib1 := join (join root "lib") "python"
    let lib2 := join (join root "lib") ("python" ++ version3)
    let libRes : Option String × String × List String :=
      if fs.isdir lib1 then (some lib1, lib1, lib1 :: sysPath)
      else if fs.isdir lib2 then (some lib2, lib2, lib2 :: sysPath)
      else (none, lib2, sysPath)
    let pkg := join libRes.2.1 "site-packages"
    let pkgRes : Option String × List String :=
      if fs.isdir pkg then (some pkg, pkg :: libRes.2.2) else (none, libRes.2.2)
    let plat := join libRes.2.1 ("plat-" ++ platform)
    let platRes : Option String × List String :=
      if fs.isdir plat then (some plat, plat :: pkgRes.2) else (none, pkgRes.2)
    .ok ({ root := root, etc := some (join root "etc"), aspen_conf := some etc_aspen_conf
         , lib := libRes.1, pkg := pkgRes.1, plat := platRes.1 }, platRes.2)
  else
    .ok ({ root := root, etc := none, aspen_conf := none
         , lib := none, pkg := none, plat := none }, sysPath)

/-- Membership test on a Python dict modelled as an association list. -/
def hasKey (d : List (String × String)) (k : String) : Bool :=
  d.any (fun kv => kv.1 == k)

/-- Keyed lookup on a Python dict modelled as an association list (callers
guard with `hasKey`, matching the membership checks of the source). -/
def getVal (d : List (String × String)) (k : String) : String :=
  ((d.find? (fun kv => kv.1 == k)).map (fun kv => kv.2)).getD ""

/-- Python `d.copy(); d.update(d2)`: entries of `d2` override those of `d`. -/
def updateAssoc (d d2 : List (String × String)) : List (String × String) :=
  d.filter (fun kv => !(hasKey d2 kv.1)) ++ d2

/-- Lookup of a named section in the parsed sections. -/
def lookupSec (secs : List (String × List (String × String))) (name : String) :
    Option (List (String × String)) :=
  (secs.find? (fun kv => kv.1 == name)).map (fun kv => kv.2)

/-- `RawConfigParser.has_section` (Python 2): membership in `_sections`; the
DEFAULT section is not acknowledged. -/
def ConfData.has_section (c : ConfData) (name : String) : Bool :=
  c.sections.any (fun kv => kv.1 == name)

/-- `RawConfigParser.items(section)`: the defaults updated with the own
variables of the section. -/
def ConfData.items (c : ConfData) (name : String) : List (String × String) :=
  updateAssoc c.defaults ((lookupSec c.sections name).getD [])

/-- `ConfFile.__getitem__` (configuration.py lines 310-311):
`self.has_section(name) and dict(self.items(name)) or {}`. Because
`has_section` never acknowledges DEFAULT, looking up "DEFAULT" always yields
the empty dict. -/
def ConfData.getItem (c : ConfData) (name : String) : List (String × String) :=
  if c.has_section name then c.items name else []

/-- `ConfFile.__init__` (configuration.py lines 305-308): the default
`filepath=False` (here `none`) skips reading; a given path is passed to
`open`, which raises `IOError` when no such file exists. -/
def ConfFile_load (fs : FS) (filepath : Option String) : Except PyError ConfData :=
  match filepath with
  | none => .ok { defaults := [], sections := [] }
  | some p => if fs.isfile p then .ok (fs.parsed p) else .error (.ioError p)

/-- The fields of the `Configuration` record (configuration.py lines 344-378),
with the mutable attribute bag rendered as a typed record. `log_level` uses
the stdlib numeric levels (INFO = 20); `log_size` is the float from the conf
file, in megabytes, as a rational. -/
structure Config where
  address : Address
  sockfam : Sockfam
  command : String
  daemon : Bool
  defaults : List String
  http_version : String
  log_filepath : String
  log_filter : String
  log_format : String
  log_keep : Int
  log_level : Int
  log_size : Rat
  threads : Nat
  verbosity : Nat
  _mode : String
  paths : Option PathsRec
  conf : Option ConfData
deriving DecidableEq

/-- The hard-coded defaults (configuration.py lines 361-378). -/
def defaultConfig : Config :=
  { address := .inet "" 8080
  , sockfam := .AF_INET
  , command := "runfg"
  , daemon := false
  , defaults := ["index.html", "index.htm"]
  , http_version := "1.1"
  , log_filepath := join "var" "aspen.log"
  , log_filter := ""
  , log_format := "compact"
  , log_keep := 5
  , log_level := 20
  , log_size := 1
  , threads := 10
  , verbosity := 1
  , _mode := "development"
  , paths := none
  , conf := none }

/-- `Configuration.update_from_environment` (lines 471-475):
`self._mode = mode.get()`. The `aspen.mode` module is not part of the
repository snapshot; modelled from the spec as a single process-wide mode
slot, read here. -/
def update_from_environment (modeSlot : String) (c : Config) : Config :=
  { c with _mode := modeSlot }

/-- The options bag `optparse` hands to `update_from_command_line`: the
values of the root, address and mode flags (with the `have_address` flag the
address callback sets, and the `have_mode` flag the mode callback sets). -/
structure Opts where
  root : String
  have_address : Bool
  address : Address
  sockfam : Sockfam
  have_mode : Bool
  mode : String
deriving DecidableEq

/-- configuration.py line 28. -/
def COMMANDS : List String := ["start", "status", "stop", "restart", "runfg"]

/-- `Configuration.update_from_command_line` (lines 478-521), taking the
parsed option bag as input. `Paths(opts.root)` runs with `sys.path` threaded
separately (its search-path effect is stated on `PathsRec.init` directly);
`command = len(args) > 1 and args[1] or runfg` keeps the falsy-string
semantics of the `and`/`or` idiom. A `-m` flag writes the mode back into the
process-wide slot (`mode.set`, modelled from the spec) and into `_mode`.
Returns the updated record and slot. -/
def update_from_command_line (fs : FS) (version3 platform : String) (opts : Opts)
    (args : List String) (modeSlot : String) (c : Config) :
    Except PyError (Config × String) :=
  match PathsRec.init fs opts.root version3 platform [] with
  | .error e => .error e
  | .ok (paths, _) =>
    let command := if args.length > 1 ∧ args.getD 1 "" ≠ "" then args.getD 1 "" else "runfg"
    if !COMMANDS.contains command then
      .error (.configurationError ("Bad command: " ++ command))
    else
      let daemon := command != "runfg"
      if daemon && WINDOWS then .error (.configurationError "Can only daemonize on UNIX.")
      else
        let c := { c with paths := some paths, command := command, daemon := daemon }
        let c := if opts.have_address then
            { c with address := opts.address, sockfam := opts.sockfam }
          else c
        if opts.have_mode then .ok ({ c with _mode := opts.mode }, opts.mode)
        else .ok (c, modeSlot)

/-- Conf-file address block (lines 538-541). `realpath` is passed through to
`validate_address` for the AF_UNIX branch. -/
def ucf_address (rp : String → String) (conf : ConfData) (c : Config) :
    Except PyError Config :=
  if hasKey (conf.getItem "DEFAULT") "address" then
    match validate_address rp (getVal (conf.getItem "DEFAULT") "address") with
    | .error e => .error e
    | .ok (a, fam) => .ok { c with address := a, sockfam := fam }
  else .ok c

/-- Python `str.lower()`. -/
def pyLower (s : String) : String := String.mk (s.data.map Char.toLower)

/-- Python `str.upper()`. -/
def pyUpper (s : String) : String := String.mk (s.data.map Char.toUpper)

/-- Python `str.strip()` on strings. -/
def pyStrip (s : String) : String := String.mk (stripChars s.data)

/-- Python `str.split()` with no argument: split on whitespace runs,
dropping empty pieces. -/
def splitWsAux : List Char → List Char → List (List Char)
  | [], acc => if acc.isEmpty then [] else [acc.reverse]
  | c :: cs, acc =>
    if c.isWhitespace then
      if acc.isEmpty then splitWsAux cs [] else acc.reverse :: splitWsAux cs []
    else splitWsAux cs (c :: acc)

/-- Python `s.split()` (no argument). -/
def pySplitWhitespace (s : String) : List String :=
  (splitWsAux s.data []).map String.mk

/-- Python `s.split(sep)` for a one-character separator, on strings. -/
def pySplitOn (sep : Char) (s : String) : List String :=
  (splitChar sep s.data).map String.mk

/-- Conf-file defaults block (lines 547-554): a comma-separated string is
split on commas with each piece stripped, otherwise split on whitespace. -/
def ucf_defaults (conf : ConfData) (c : Config) : Config :=
  if hasKey (conf.getItem "DEFAULT") "defaults" then
    let ds := getVal (conf.getItem "DEFAULT") "defaults"
    let dlist := if ds.data.contains ',' then (pySplitOn ',' ds).map pyStrip
                 else pySplitWhitespace ds
    { c with defaults := dlist }
  else c

/-- Conf-file http_version block (lines 560-566). -/
def ucf_http_version (conf : ConfData) (c : Config) : Except PyError Config :=
  if hasKey (conf.getItem "DEFAULT") "http_version" then
    let v := getVal (conf.getItem "DEFAULT") "http_version"
    if v ≠ "1.0" ∧ v ≠ "1.1" then
      .error (.typeError ("http_version must be 1.0 or 1.1, not \x27" ++ v ++ "\x27"))
    else .ok { c with http_version := v }
  else .ok c

/-- `getattr(logging, name)` restricted to the stdlib severity constants
(the only uppercase names the level lookup is meant to reach). -/
def logLevelOf (name : String) : Option Int :=
  if name = "CRITICAL" then some 50
  else if name = "FATAL" then some 50
  else if name = "ERROR" then some 40
  else if name = "WARNING" then some 30
  else if name = "WARN" then some 30
  else if name = "INFO" then some 20
  else if name = "DEBUG" then some 10
  else if name = "NOTSET" then some 0
  else none

/-- Model of Python `float(s)` restricted to optionally signed decimal
literals `[sign] digits [. digits]` (the only shapes a conf-file size value
is meant to take); other inputs fail. -/
def pyFloat? (s : String) : Option Rat :=
  let l := stripChars s.data
  let sl : Rat × List Char :=
    match l with
    | '-' :: r => (-1, r)
    | '+' :: r => (1, r)
    | r => (1, r)
  match splitChar '.' sl.2 with
  | [ip] => if pyIsdigit ip then some (sl.1 * (decVal ip : Rat)) else none
  | [ip, fp] =>
    if (pyIsdigit ip || ip.isEmpty) && (pyIsdigit fp || fp.isEmpty)
        && !(ip.isEmpty && fp.isEmpty) then
      some (sl.1 * ((decVal ip : Rat) + (decVal fp : Rat) / ((10 : Rat) ^ fp.length)))
    else none
  | _ => none

/-- Model of Python `int(s)` on strings: optional sign, decimal digits,
surrounding whitespace allowed. -/
def pyInt? (s : String) : Option Int :=
  let l := stripChars s.data
  match l with
  | '-' :: r => if pyIsdigit r then some (-(decVal r : Int)) else none
  | '+' :: r => if pyIsdigit r then some ((decVal r : Int)) else none
  | r => if pyIsdigit r then some ((decVal r : Int)) else none

/-- Conf-file logging block (lines 572-617). `root` is `self.paths.root`.
The `filepath` value is made absolute against the root and its parent
directory checked, but the checked value is never assigned to
`log_filepath` (the source block at lines 574-581 validates and discards). -/
def ucf_logging (fs : FS) (root : String) (conf : ConfData) (c0 : Config) :
    Except PyError Config := do
  let lg := conf.getItem "logging"
  if lg.isEmpty then
    return c0
  if hasKey lg "filepath" then
    let v0 := getVal lg "filepath"
    let value := if isabs v0 then v0 else join root v0
    if !(fs.isdir (dirname value)) then
      throw (.configurationError ("Log file\x27s parent directory does not exist: " ++ value))
  let c1 := if hasKey lg "filter" then { c0 with log_filter := getVal lg "filter" } else c0
  let c2 ← if hasKey lg "format" then
      let value := pyLower (getVal lg "format")
      if value ≠ "compact" ∧ value ≠ "verbose" then
        throw (.configurationError ("Bad log format: " ++ value))
      else pure { c1 with log_format := value }
    else pure c1
  let c3 ← if hasKey lg "level" then
      match logLevelOf (pyUpper (getVal lg "level")) with
      | none => throw (.configurationError ("Bad log level: " ++ getVal lg "level"))
      | some lvl => pure { c2 with log_level := lvl }
    else pure c2
  let c4 ← if hasKey lg "size" then
      match pyFloat? (getVal lg "size") with
      | none => throw (.configurationError ("Bad logfile size: " ++ getVal lg "size"))
      | some q => pure { c3 with log_size := q }
    else pure c3
  let c5 ← if hasKey lg "keep" then
      match pyInt? (getVal lg "keep") with
      | none => throw (.configurationError ("Bad number of log files to keep: " ++ getVal lg "keep"))
      | some n => pure { c4 with log_keep := n }
    else pure c4
  return c5

/-- Conf-file threads block: source line 631 is
`if threads in self.conf.DEFAULT:`, which evaluates the function-local name
`threads` before any assignment to it (the assignments are at lines 632 and
638), so Python raises `UnboundLocalError` here unconditionally. -/
def ucf_threads (_conf : ConfData) (_c : Config) : Except PyError Config :=
  .error (.unboundLocalError "threads")

/-- Modelled from the spec: the intended threads update. Spec section 9 says
the defective membership test was meant to check whether the key "threads"
exists in the DEFAULT section of the conf file, and section 4.5 gives the rules:
a non-digit string fails with a type error, a digit string below 1 fails
with a value error, otherwise the count is the parsed integer. -/
def threads_update_intended (conf : ConfData) (c : Config) : Except PyError Config :=
  if hasKey conf.defaults "threads" then
    let threads := getVal conf.defaults "threads"
    if !pyIsdigit threads.data then
      .error (.typeError ("thread count not a positive integer: \x27" ++ threads ++ "\x27"))
    else
      let t := decVal threads.data
      if !(decide (t ≥ 1)) then
        .error (.valueError ("thread count less than 1: \x27" ++ toString t ++ "\x27"))
      else .ok { c with threads := t }
  else .ok c

/-- `Configuration.update_from_conf_file` (lines 524-655): load the conf
file named by `paths.aspen_conf` (an empty `ConfFile` when there is none),
then run the address, defaults, http_version, logging, mode and threads
blocks in source order. A conf-file mode writes both the `_mode` field and
the process-wide slot. -/
def update_from_conf_file (fs : FS) (rp : String → String) (c : Config)
    (modeSlot : String) : Except PyError (Config × String) := do
  match c.paths with
  | none => throw (.attributeError "NoneType has no attribute aspen_conf")
  | some paths =>
    match paths.aspen_conf with
    | none => return ({ c with conf := some { defaults := [], sections := [] } }, modeSlot)
    | some cfpath =>
      let conf ← ConfFile_load fs (some cfpath)
      let c := { c with conf := some conf }
      let c ← ucf_address rp conf c
      let c := ucf_defaults conf c
      let c ← ucf_http_version conf c
      let c ← ucf_logging fs paths.root conf c
      let ms : Config × String :=
        if hasKey (conf.getItem "DEFAULT") "mode" then
          ({ c with _mode := getVal (conf.getItem "DEFAULT") "mode" }
          , getVal (conf.getItem "DEFAULT") "mode")
        else (c, modeSlot)
      let c ← ucf_threads conf ms.1
      return (c, ms.2)

/-- The kind of handler the logging bootstrap builds: a stderr stream
handler, or a rotating file handler with its rotation threshold in bytes
(`log_size * MEGABYTE`) and retained-file count. -/
inductive HandlerKind where
  | stream
  | rotating (filepath : String) (maxBytes : Rat) (backupCount : Int)
deriving DecidableEq

/-- A configured handler: its kind, the format template chosen
(compact or verbose), and the filter pattern attached. -/
structure Handler where
  kind : HandlerKind
  formatKind : String
  filter : String
deriving DecidableEq

/-- The state of the named `aspen` logger. -/
structure LoggerState where
  handlers : List Handler
  level : Int
  propagate : Bool
deriving DecidableEq

/-- configuration.py line 27: `MEGABYTE = pow(2, 20)`. -/
def MEGABYTE : Nat := 1048576

/-- `logging.Logger.addHandler`: append the handler unless already present. -/
def addHandler (lg : LoggerState) (h : Handler) : LoggerState :=
  if lg.handlers.contains h then lg else { lg with handlers := lg.handlers ++ [h] }

/-- The logging bootstrap tail of `Configuration.__init__` (lines 393-463):
pick the format template (anything else fails the sanity check), build one
handler from the daemon flag, then reset the handler list of the `aspen` logger,
attach the new handler, set the level and disable propagation. -/
def configureLogging (c : Config) (lg : LoggerState) : Except PyError LoggerState :=
  if c.log_format = "compact" ∨ c.log_format = "verbose" then
    let handler : Handler :=
      if c.daemon = false then
        { kind := .stream, formatKind := c.log_format, filter := c.log_filter }
      else
        { kind := .rotating c.log_filepath (c.log_size * (MEGABYTE : Rat)) c.log_keep
        , formatKind := c.log_format, filter := c.log_filter }
    let lg := { lg with handlers := [] }
    let lg := addHandler lg handler
    .ok { lg with level := c.log_level, propagate := false }
  else .error (.configurationError "Sanity check.")

/-- `Configuration.__init__` (lines 344-463): defaults, then the three
update passes in order (environment, command line, conf file), then the
logging bootstrap. `envMode` is the process-wide mode slot at entry; the
final slot value is returned alongside the record and the logger state. -/
def Configuration_init (fs : FS) (rp : String → String) (version3 platform : String)
    (envMode : String) (opts : Opts) (args : List String) (lg : LoggerState) :
    Except PyError (Config × String × LoggerState) := do
  let c := defaultConfig
  let c := update_from_environment envMode c
  let cs ← update_from_command_line fs version3 platform opts args envMode c
  let cs ← update_from_conf_file fs rp cs.1 cs.2
  let lgOut ← configureLogging cs.1 lg
  return (cs.1, cs.2, lgOut)

/-- Does a result fail specifically with the `InvalidAddressError` of the spec? -/
def raisesInvalidAddress (r : Except PyError (Address × Sockfam)) : Bool :=
  match r with
  | .error (.invalidAddressError _) => true
  | _ => false

/-- No leading zero: a multi-character numeral may not start with `0`
(`0` itself is fine). Keeps a dotted-quad octet inside the decimal reading
of the classic `inet_aton` number syntax. -/
def noLeadZero (l : List Char) : Bool :=
  match l with
  | c :: _ :: _ => c != '0'
  | _ => true

/-- A syntactically valid dotted-quad octet: a non-empty decimal numeral
without a leading zero whose value is at most 255. -/
def isOctetL (l : List Char) : Bool :=
  pyIsdigit l && noLeadZero l && decide (decVal l ≤ 255)

/-- Octet predicate on strings. -/
def isOctetStr (s : String) : Bool := isOctetL s.data

/-- A syntactically valid dotted-quad IPv4 literal: four octets joined by
dots. -/
def DottedQuad (h : String) : Prop :=
  ∃ a b c d : String,
    h = a ++ "." ++ b ++ "." ++ c ++ "." ++ d ∧
    isOctetStr a = true ∧ isOctetStr b = true ∧ isOctetStr c = true ∧ isOctetStr d = true

/-- A filesystem with no files and no directories. -/
def fsNone : FS :=
  { isfile := fun _ => false, isdir := fun _ => false
  , parsed := fun _ => { defaults := [], sections := [] } }

/-- A filesystem on which every path is a file (so in particular both
aspen.conf candidates exist). -/
def fsBoth : FS :=
  { isfile := fun _ => true, isdir := fun _ => false
  , parsed := fun _ => { defaults := [], sections := [] } }

/-- Root `/r` with the etc variant of aspen.conf active and all three
search-path directories present. -/
def fsC1 : FS :=
  { isfile := fun p => p == "/r/etc/aspen.conf"
  , isdir := fun p =>
      p == "/r/lib/python" || p == "/r/lib/python/site-packages"
        || p == "/r/lib/python/plat-linux2"
  , parsed := fun _ => { defaults := [], sections := [] } }

/-- Root `/r` whose aspen.conf has a DEFAULT section holding
`mode = production`. -/
def fsC2 : FS :=
  { isfile := fun p => p == "/r/aspen.conf", isdir := fun _ => false
  , parsed := fun _ => { defaults := [("mode", "production")], sections := [] } }

/-- Root `/r` whose aspen.conf has a DEFAULT section holding
`threads = 4`. -/
def fsC4 : FS :=
  { isfile := fun p => p == "/r/aspen.conf", isdir := fun _ => false
  , parsed := fun _ => { defaults := [("threads", "4")], sections := [] } }

/-- Root `/r` whose aspen.conf has a logging section with
`filepath = log/app.log`, and in which the parent directory `/r/log`
exists. -/
def fsC5a : FS :=
  { isfile := fun p => p == "/r/aspen.conf", isdir := fun p => p == "/r/log"
  , parsed := fun _ => { defaults := [], sections := [("logging", [("filepath", "log/app.log")])] } }

/-- Same conf file as `fsC5a` but with no `/r/log` directory. -/
def fsC5b : FS :=
  { isfile := fun p => p == "/r/aspen.conf", isdir := fun _ => false
  , parsed := fun _ => { defaults := [], sections := [("logging", [("filepath", "log/app.log")])] } }

/-- A command line with root `/r` and neither an address nor a mode flag. -/
def optsNoMode : Opts :=
  { root := "/r", have_address := false, address := .inet "0.0.0.0" 8080
  , sockfam := .AF_INET, have_mode := false, mode := "development" }

/-- The same command line with `-m debugging` supplied. -/
def optsDebugging : Opts :=
  { optsNoMode with have_mode := true, mode := "debugging" }

/-- The `aspen` logger before any bootstrap: no handlers, the stdlib default
WARNING level, propagation on. -/
def lg0 : LoggerState := { handlers := [], level := 30, propagate := true }

theorem data_append (s t : String) : (s ++ t).data = s.data ++ t.data := rfl

theorem splitCharFn_no_sep (sep : Char) :
    ∀ l : List Char, (∀ c ∈ l, c ≠ sep) → splitCharFn sep l = (l, []) := by
  intro l
  induction l with
  | nil => intro _; rfl
  | cons c cs ih =>
    intro hl
    have hc : c ≠ sep := hl c (List.mem_cons_self c cs)
    have ihr := ih (fun x hx => hl x (List.mem_cons_of_mem c hx))
    simp [splitCharFn, ihr, hc]

theorem splitCharFn_append (sep : Char) (p : List Char) :
    ∀ h : List Char, (∀ c ∈ h, c ≠ sep) →
      splitCharFn sep (h ++ sep :: p) =
        (h, (splitCharFn sep p).1 :: (splitCharFn sep p).2) := by
  intro h
  induction h with
  | nil => intro _; simp [splitCharFn]
  | cons c cs ih =>
    intro hl
    have hc : c ≠ sep := hl c (List.mem_cons_self c cs)
    have ihr := ih (fun x hx => hl x (List.mem_cons_of_mem c hx))
    simp [splitCharFn, ihr, hc]

theorem splitChar_pair (sep : Char) (h p : List Char)
    (hh : ∀ c ∈ h, c ≠ sep) (hp : ∀ c ∈ p, c ≠ sep) :
    splitChar sep (h ++ sep :: p) = [h, p] := by
  unfold splitChar
  rw [splitCharFn_append sep p h hh, splitCharFn_no_sep sep p hp]

theorem dropWhile_eq_self (q : Char → Bool) (l : List Char)
    (h : ∀ c ∈ l, q c = false) : l.dropWhile q = l := by
  cases l with
  | nil => rfl
  | cons c cs => simp [List.dropWhile, h c (List.mem_cons_self c cs)]

theorem stripChars_eq_self (l : List Char)
    (h : ∀ c ∈ l, c.isWhitespace = false) : stripChars l = l := by
  unfold stripChars
  rw [dropWhile_eq_self _ l h]
  rw [dropWhile_eq_self _ l.reverse (fun c hc => h c (List.mem_reverse.mp hc))]
  exact List.reverse_reverse l

theorem digit_ne (c d : Char) (hd : d.isDigit = false) (hc : c.isDigit = true) :
    c ≠ d := by
  intro heq
  rw [heq, hd] at hc
  exact Bool.noConfusion hc

theorem digit_not_ws (c : Char) (hc : c.isDigit = true) : c.isWhitespace = false := by
  cases hw : c.isWhitespace
  · rfl
  · exfalso
    have hw' := hw
    simp [Char.isWhitespace] at hw'
    rcases hw' with ((h1 | h1) | h1) | h1 <;> subst h1 <;> simp [Char.isDigit] at hc

theorem count_zero_of_ne (x : Char) (l : List Char)
    (h : ∀ c ∈ l, c ≠ x) : l.count x = 0 :=
  List.count_eq_zero.mpr (fun hmem => h x hmem rfl)

theorem isOctetL_parts (l : List Char) (h : isOctetL l = true) :
    pyIsdigit l = true ∧ noLeadZero l = true ∧ decVal l ≤ 255 := by
  unfold isOctetL at h
  simp [Bool.and_eq_true] at h
  exact ⟨h.1.1, h.1.2, h.2⟩

theorem isOctetL_digits (l : List Char) (h : isOctetL l = true) :
    ∀ c ∈ l, c.isDigit = true := by
  have hp := (isOctetL_parts l h).1
  unfold pyIsdigit at hp
  simp [Bool.and_eq_true] at hp
  exact hp.2

theorem isOctetL_ne_nil (l : List Char) (h : isOctetL l = true) : l ≠ [] := by
  have hp := (isOctetL_parts l h).1
  unfold pyIsdigit at hp
  simp [Bool.and_eq_true] at hp
  intro heq
  rw [heq] at hp
  simp at hp

theorem isOctetL_cNum (l : List Char) (h : isOctetL l = true) :
    cNum l = some (decVal l) := by
  obtain ⟨hdig, hnlz, _⟩ := isOctetL_parts l h
  cases l with
  | nil => exact absurd rfl (isOctetL_ne_nil [] h)
  | cons c rest =>
    by_cases hc : c = '0'
    · subst hc
      cases rest with
      | nil => rfl
      | cons r rs =>
        exfalso
        simp [noLeadZero] at hnlz
    · have hd' : (!(c :: rest).isEmpty && (c :: rest).all Char.isDigit) = true := hdig
      have hall := isOctetL_digits (c :: rest) h
      simp [cNum, hc, decVal?, hd']
      exact ⟨hall c (List.mem_cons_self c rest), fun x hx => hall x (List.mem_cons_of_mem c hx)⟩

theorem digits_ne_dot (l : List Char) (h : ∀ c ∈ l, c.isDigit = true) :
    ∀ c ∈ l, c ≠ '.' :=
  fun c hc => digit_ne c '.' (by decide) (h c hc)

theorem digits_ne_colon (l : List Char) (h : ∀ c ∈ l, c.isDigit = true) :
    ∀ c ∈ l, c ≠ ':' :=
  fun c hc => digit_ne c ':' (by decide) (h c hc)

theorem quad_split (a b c d : List Char)
    (ha : ∀ x ∈ a, x.isDigit = true) (hb : ∀ x ∈ b, x.isDigit = true)
    (hc : ∀ x ∈ c, x.isDigit = true) (hd : ∀ x ∈ d, x.isDigit = true) :
    splitChar '.' (a ++ '.' :: (b ++ '.' :: (c ++ '.' :: d))) = [a, b, c, d] := by
  unfold splitChar
  rw [splitCharFn_append '.' _ a (digits_ne_dot a ha)]
  rw [splitCharFn_append '.' _ b (digits_ne_dot b hb)]
  rw [splitCharFn_append '.' _ c (digits_ne_dot c hc)]
  rw [splitCharFn_no_sep '.' d (digits_ne_dot d hd)]

theorem quad_aton (a b c d : List Char)
    (ha : isOctetL a = true) (hb : isOctetL b = true)
    (hc : isOctetL c = true) (hd : isOctetL d = true) :
    inet_aton_ok (a ++ '.' :: (b ++ '.' :: (c ++ '.' :: d))) = true := by
  unfold inet_aton_ok
  rw [quad_split a b c d (isOctetL_digits a ha) (isOctetL_digits b hb)
      (isOctetL_digits c hc) (isOctetL_digits d hd)]
  have hv : partsVals [a, b, c, d] =
      some [decVal a, decVal b, decVal c, decVal d] := by
    simp [partsVals, isOctetL_cNum a ha, isOctetL_cNum b hb,
      isOctetL_cNum c hc, isOctetL_cNum d hd]
  rw [hv]
  simp [Bool.and_eq_true, decide_eq_true_eq]
  exact ⟨⟨⟨(isOctetL_parts a ha).2.2, (isOctetL_parts b hb).2.2⟩,
    (isOctetL_parts c hc).2.2⟩, (isOctetL_parts d hd).2.2⟩

/-- Claim C10: on the empty-string input, `validate_address` performs the
unconditional first-character indexing before any classification, so the
empty string escapes the error taxonomy of the validator with an IndexError-style
out-of-bounds failure rather than a validation failure. -/
theorem c10_theorem : validate_address id "" = .error .indexError := rfl

/-- Claim C3, counterexample: none of the three inputs fails with the specified
`InvalidAddressError` — no such error type exists anywhere in the code, so
`raisesInvalidAddress` is false on each result. -/
theorem c3_counterexample :
    raisesInvalidAddress (validate_address id "256.1.1.1:80") = false ∧
    raisesInvalidAddress (validate_address id "1.1.1.1:99999") = false ∧
    raisesInvalidAddress (validate_address id "bad") = false :=
  ⟨rfl, rfl, rfl⟩

/-- Claim C3, amended: each of the three inputs does fail, but by the
old-style string raise `"Bad address %s"` (lines 90 and 98/102/106/113/122/
131/138/141 of configuration.py), not by any specialized error type. -/
theorem c3_theorem :
    validate_address id "256.1.1.1:80" = .error (.stringException "Bad address 256.1.1.1:80") ∧
    validate_address id "1.1.1.1:99999" = .error (.stringException "Bad address 1.1.1.1:99999") ∧
    validate_address id "bad" = .error (.stringException "Bad address bad") :=
  ⟨rfl, rfl, rfl⟩

/-- Claim C1, counterexample: with the etc variant active and all three
directories present under root `/r`, the resolver pushes lib, then pkg, then
plat onto the front of the search path, so the final order is plat, pkg, lib
— the head of the search path is the platform directory, not `libDir` as the
claim asserts. -/
theorem c1_counterexample :
    PathsRec.init fsC1 "/r" "2.5" "linux2" [] =
      .ok ({ root := "/r", etc := some "/r/etc", aspen_conf := some "/r/etc/aspen.conf"
           , lib := some "/r/lib/python", pkg := some "/r/lib/python/site-packages"
           , plat := some "/r/lib/python/plat-linux2" }
          , ["/r/lib/python/plat-linux2", "/r/lib/python/site-packages", "/r/lib/python"]) ∧
    ["/r/lib/python/plat-linux2", "/r/lib/python/site-packages",
      "/r/lib/python"].head? ≠ some "/r/lib/python" :=
  ⟨rfl, by decide⟩

/-- Claim C1, amended: for every root whose etc variant is active and in
which the lib, site-packages and platform directories all exist, the three
are prepended in source order lib, then pkg, then plat, so the platform
directory ends up with the highest priority (first) and `libDir` with the
lowest of the three on the final search path. -/
theorem c1_theorem (fs : FS) (root version3 platform : String) (sp : List String)
    (h1 : fs.isfile (join root "aspen.conf") = false)
    (h2 : fs.isfile (join (join root "etc") "aspen.conf") = true)
    (h3 : fs.isdir (join (join root "lib") "python") = true)
    (h4 : fs.isdir (join (join (join root "lib") "python") "site-packages") = true)
    (h5 : fs.isdir (join (join (join root "lib") "python") ("plat-" ++ platform)) = true) :
    PathsRec.init fs root version3 platform sp =
      .ok ({ root := root, etc := some (join root "etc")
           , aspen_conf := some (join (join root "etc") "aspen.conf")
           , lib := some (join (join root "lib") "python")
           , pkg := some (join (join (join root "lib") "python") "site-packages")
           , plat := some (join (join (join root "lib") "python") ("plat-" ++ platform)) }
          , join (join (join root "lib") "python") ("plat-" ++ platform)
            :: join (join (join root "lib") "python") "site-packages"
            :: join (join root "lib") "python" :: sp) := by
  simp [PathsRec.init, h1, h2, h3, h4, h5]

/-- Claim C1, witness: the amended order theorem applied to the concrete
root `/r`. -/
theorem c1_witness :
    PathsRec.init fsC1 "/r" "2.5" "linux2" [] =
      .ok ({ root := "/r", etc := some (join "/r" "etc")
           , aspen_conf := some (join (join "/r" "etc") "aspen.conf")
           , lib := some (join (join "/r" "lib") "python")
           , pkg := some (join (join (join "/r" "lib") "python") "site-packages")
           , plat := some (join (join (join "/r" "lib") "python") ("plat-" ++ "linux2")) }
          , join (join (join "/r" "lib") "python") ("plat-" ++ "linux2")
            :: join (join (join "/r" "lib") "python") "site-packages"
            :: join (join "/r" "lib") "python" :: []) :=
  c1_theorem fsC1 "/r" "2.5" "linux2" [] rfl rfl rfl rfl rfl

/-- Claim C7: with both aspen.conf candidates present under the root, path
resolution fails with the ConfigurationError of lines 245-248; with neither
present it succeeds and every optional field of the record is null. -/
theorem c7_theorem :
    (∀ (fs : FS) (root version3 platform : String) (sp : List String),
      fs.isfile (join root "aspen.conf") = true →
      fs.isfile (join (join root "etc") "aspen.conf") = true →
      PathsRec.init fs root version3 platform sp =
        .error (.configurationError "Only one of aspen.conf and etc/aspen.conf may be present.")) ∧
    (∀ (fs : FS) (root version3 platform : String) (sp : List String),
      fs.isfile (join root "aspen.conf") = false →
      fs.isfile (join (join root "etc") "aspen.conf") = false →
      PathsRec.init fs root version3 platform sp =
        .ok ({ root := root, etc := none, aspen_conf := none
             , lib := none, pkg := none, plat := none }, sp)) := by
  constructor
  · intro fs root version3 platform sp h1 h2
    simp [PathsRec.init, h1, h2]
  · intro fs root version3 platform sp h1 h2
    simp [PathsRec.init, h1, h2]

/-- Claim C7, witness: both candidates present on `fsBoth` gives the fatal
error; neither present on `fsNone` gives the all-null record. -/
theorem c7_witness :
    PathsRec.init fsBoth "/r" "2.5" "linux2" [] =
      .error (.configurationError "Only one of aspen.conf and etc/aspen.conf may be present.") ∧
    PathsRec.init fsNone "/r" "2.5" "linux2" [] =
      .ok ({ root := "/r", etc := none, aspen_conf := none
           , lib := none, pkg := none, plat := none }, []) :=
  ⟨c7_theorem.1 fsBoth "/r" "2.5" "linux2" [] rfl rfl,
   c7_theorem.2 fsNone "/r" "2.5" "linux2" [] rfl rfl⟩

/-- Claim C8: loading with no path yields the empty ConfFile and every
section lookup on it returns the empty mapping; but a path that names no
existing file is handed straight to `open`, which raises IOError — it does
not yield an empty ConfFile as the claim (and the docstring of the class itself)
says. -/
theorem c8_theorem :
    ConfFile_load fsNone none = .ok { defaults := [], sections := [] } ∧
    (∀ name, ConfData.getItem { defaults := [], sections := [] } name = []) ∧
    ConfFile_load fsNone (some "/r/aspen.conf") = .error (.ioError "/r/aspen.conf") :=
  ⟨rfl, fun _ => rfl, rfl⟩

/-- Claim C2: in the embedding of the code, the conf-file mode never becomes
the final mode. The lookup `self.conf.DEFAULT` is always the empty dict
(the `has_section` of RawConfigParser never acknowledges DEFAULT), so the mode of
the DEFAULT section of the file is never read, and resolution then dies with
UnboundLocalError at the threads membership test — with environment mode
staging and no CLI flag, and likewise with CLI mode debugging, resolution
returns no Configuration at all instead of mode production. -/
theorem c2_theorem :
    Configuration_init fsC2 id "2.5" "linux2" "staging" optsNoMode ["aspen"] lg0 =
      .error (.unboundLocalError "threads") ∧
    Configuration_init fsC2 id "2.5" "linux2" "staging" optsDebugging ["aspen"] lg0 =
      .error (.unboundLocalError "threads") ∧
    (fsC2.parsed "/r/aspen.conf").getItem "DEFAULT" = [] ∧
    hasKey (fsC2.parsed "/r/aspen.conf").defaults "mode" = true :=
  ⟨rfl, rfl, rfl, rfl⟩

/-- Claim C4: with `threads = 4` in the DEFAULT section of the conf file, the
code raises UnboundLocalError at `if threads in self.conf.DEFAULT:` (line
631) before any value is examined; the intended behavior per the spec (section 9)
accepts "4" as integer 4, rejects "0" with a value error and "-1" with a
type error. -/
theorem c4_theorem :
    Configuration_init fsC4 id "2.5" "linux2" "development" optsNoMode ["aspen"] lg0 =
      .error (.unboundLocalError "threads") ∧
    threads_update_intended { defaults := [("threads", "4")], sections := [] } defaultConfig =
      .ok { defaultConfig with threads := 4 } ∧
    threads_update_intended { defaults := [("threads", "0")], sections := [] } defaultConfig =
      .error (.valueError "thread count less than 1: \x270\x27") ∧
    threads_update_intended { defaults := [("threads", "-1")], sections := [] } defaultConfig =
      .error (.typeError "thread count not a positive integer: \x27-1\x27") :=
  ⟨rfl, rfl, rfl, rfl⟩

/-- Claim C5: the parent-directory check holds — a conf-file logging
filepath whose parent directory is missing aborts resolution with
ConfigurationError — but the supplied value never overrides the log-file
path field: the block validates and discards it, leaving the default
`var/aspen.log` untouched. -/
theorem c5_theorem :
    ucf_logging fsC5a "/r" (fsC5a.parsed "/r/aspen.conf") defaultConfig = .ok defaultConfig ∧
    defaultConfig.log_filepath = "var/aspen.log" ∧
    ("var/aspen.log" : String) ≠ "/r/log/app.log" ∧
    ucf_logging fsC5b "/r" (fsC5b.parsed "/r/aspen.conf") defaultConfig =
      .error (.configurationError "Log file\x27s parent directory does not exist: /r/log/app.log") ∧
    Configuration_init fsC5b id "2.5" "linux2" "development" optsNoMode ["aspen"] lg0 =
      .error (.configurationError "Log file\x27s parent directory does not exist: /r/log/app.log") :=
  ⟨rfl, rfl, by decide, rfl, rfl⟩

/-- Claim C9: running the logging bootstrap twice in succession with the
same Configuration leaves exactly one handler on the `aspen` logger: the
step resets the handler list before attaching the one new handler, so
handlers are replaced, never accumulated. -/
theorem c9_theorem (c : Config) (lg lg1 lg2 : LoggerState)
    (h1 : configureLogging c lg = .ok lg1) (h2 : configureLogging c lg1 = .ok lg2) :
    lg1.handlers.length = 1 ∧ lg2.handlers.length = 1 := by
  unfold configureLogging at h1 h2
  by_cases hc : c.log_format = "compact" ∨ c.log_format = "verbose"
  · rw [if_pos hc] at h1 h2
    injection h1 with h1
    injection h2 with h2
    subst h1
    subst h2
    exact ⟨rfl, rfl⟩
  · rw [if_neg hc] at h1
    exact absurd h1 (by simp)

/-- Claim C9, witness: the double bootstrap on the default configuration,
starting from the pristine logger. -/
theorem c9_witness :
    ({ handlers := [{ kind := .stream, formatKind := "compact", filter := "" }]
     , level := 20, propagate := false } : LoggerState).handlers.length = 1 ∧
    ({ handlers := [{ kind := .stream, formatKind := "compact", filter := "" }]
     , level := 20, propagate := false } : LoggerState).handlers.length = 1 :=
  c9_theorem defaultConfig lg0
    { handlers := [{ kind := .stream, formatKind := "compact", filter := "" }]
    , level := 20, propagate := false }
    { handlers := [{ kind := .stream, formatKind := "compact", filter := "" }]
    , level := 20, propagate := false }
    rfl rfl

/-- Claim C6: for every input of the form h:p with h a syntactically valid
dotted-quad (octets without leading zeros, each at most 255) or the empty
string, and p a decimal-digit string whose value is at most 65535,
`validate_address` succeeds with family AF_INET and the pair (h, int(p)),
an empty h normalized to 0.0.0.0. -/
theorem c6_theorem (realpath : String → String) (h p : String)
    (hh : h = "" ∨ DottedQuad h)
    (hp : pyIsdigit p.data = true) (hport : decVal p.data ≤ 65535) :
    validate_address realpath (h ++ ":" ++ p) =
      .ok (.inet (if h = "" then "0.0.0.0" else h) (decVal p.data), .AF_INET) := by
  have hp2 : (!p.data.isEmpty && p.data.all Char.isDigit) = true := hp
  simp only [Bool.and_eq_true, Bool.not_eq_true', List.all_eq_true] at hp2
  obtain ⟨hpne, hpdig⟩ := hp2
  have hpcolon : ∀ x ∈ p.data, x ≠ ':' := digits_ne_colon p.data hpdig
  have hpws : ∀ x ∈ p.data, x.isWhitespace = false :=
    fun x hx => digit_not_ws x (hpdig x hx)
  have hpcount : p.data.count ':' = 0 := count_zero_of_ne ':' p.data hpcolon
  have hpstrip : stripChars p.data = p.data := stripChars_eq_self p.data hpws
  have hdata : (h ++ ":" ++ p).data = h.data ++ ':' :: p.data := by
    rw [data_append, data_append, show (":" : String).data = [':'] from rfl,
      List.append_assoc]
    rfl
  rcases hh with hE | hQ
  · subst hE
    have hsplit : splitChar ':' (':' :: p.data) = [[], p.data] :=
      splitChar_pair ':' [] p.data (by simp) hpcolon
    simp only [validate_address, hdata]
    simp [hsplit, hpstrip, List.count_cons, hpcount, hp, hport]
    rfl
  · obtain ⟨a, b, c, d, heq, ha, hb, hc, hd⟩ := hQ
    have haD := isOctetL_digits a.data ha
    have hbD := isOctetL_digits b.data hb
    have hcD := isOctetL_digits c.data hc
    have hdD := isOctetL_digits d.data hd
    have hhdata : h.data = a.data ++ '.' :: (b.data ++ '.' :: (c.data ++ '.' :: d.data)) := by
      rw [heq]
      simp [data_append, List.append_assoc]
    have hhchars : ∀ x ∈ h.data, x.isDigit = true ∨ x = '.' := by
      rw [hhdata]
      intro x hx
      rcases List.mem_append.mp hx with h1 | h1
      · exact Or.inl (haD x h1)
      · rcases List.mem_cons.mp h1 with h2 | h2
        · exact Or.inr h2
        · rcases List.mem_append.mp h2 with h3 | h3
          · exact Or.inl (hbD x h3)
          · rcases List.mem_cons.mp h3 with h4 | h4
            · exact Or.inr h4
            · rcases List.mem_append.mp h4 with h5 | h5
              · exact Or.inl (hcD x h5)
              · rcases List.mem_cons.mp h5 with h6 | h6
                · exact Or.inr h6
                · exact Or.inl (hdD x h6)
    have hhcolon : ∀ x ∈ h.data, x ≠ ':' := by
      intro x hx
      rcases hhchars x hx with hdg | hdot
      · exact digit_ne x ':' (by decide) hdg
      · subst hdot; decide
    have hhws : ∀ x ∈ h.data, x.isWhitespace = false := by
      intro x hx
      rcases hhchars x hx with hdg | hdot
      · exact digit_not_ws x hdg
      · subst hdot; decide
    have hhcount : h.data.count ':' = 0 := count_zero_of_ne ':' h.data hhcolon
    have hhstrip : stripChars h.data = h.data := stripChars_eq_self h.data hhws
    obtain ⟨a0, arest, ha0⟩ : ∃ a0 arest, a.data = a0 :: arest := by
      cases hA : a.data with
      | nil => exact absurd hA (isOctetL_ne_nil a.data ha)
      | cons x xs => exact ⟨x, xs, rfl⟩
    have ha0dig : a0.isDigit = true := haD a0 (by rw [ha0]; exact List.mem_cons_self _ _)
    have hne : h ≠ "" := by
      intro h0
      rw [h0, ha0] at hhdata
      have hx : ([] : List Char) =
          a0 :: (arest ++ '.' :: (b.data ++ '.' :: (c.data ++ '.' :: d.data))) := hhdata
      exact List.noConfusion hx
    have hiE : (h.data ++ ':' :: p.data).isEmpty = false := by
      rw [hhdata, ha0]; rfl
    have hhead : (h.data ++ ':' :: p.data).headD ' ' = a0 := by
      rw [hhdata, ha0]; rfl
    have hnotslash : ¬(a0 = '/' ∨ a0 = '.') := by
      rintro (h1 | h1)
      · exact digit_ne a0 '/' (by decide) ha0dig h1
      · exact digit_ne a0 '.' (by decide) ha0dig h1
    have hcount : (h.data ++ ':' :: p.data).count ':' = 1 := by
      simp [List.count_append, List.count_cons, hhcount, hpcount]
    have hsplit : splitChar ':' (h.data ++ ':' :: p.data) = [h.data, p.data] :=
      splitChar_pair ':' h.data p.data hhcolon hpcolon
    have hhE : h.data.isEmpty = false := by
      rw [ha0] at hhdata
      rw [hhdata]; rfl
    have haton : inet_aton_ok h.data = true := by
      rw [hhdata]
      exact quad_aton a.data b.data c.data d.data ha hb hc hd
    have hmk : String.mk h.data = h := rfl
    simp only [validate_address, hdata]
    rw [hiE]
    simp only [hhead, hcount, hsplit]
    rw [if_neg hnotslash]
    simp [hhstrip, hpstrip, hhE, haton, hp, hport, hmk, hne]

/-- Claim C6, witness: the IPv4 success theorem applied to 127.0.0.1:8080. -/
theorem c6_witness :
    validate_address id ("127.0.0.1" ++ ":" ++ "8080") =
      .ok (.inet (if ("127.0.0.1" : String) = "" then "0.0.0.0" else "127.0.0.1")
        (decVal "8080".data), .AF_INET) :=
  c6_theorem id "127.0.0.1" "8080"
    (Or.inr ⟨"127", "0", "0", "1", by decide, by decide, by decide, by decide, by decide⟩)
    (by decide) (by decide)

end Aspen
